import Mathlib

/-
Verification of the papermes transaction-extraction-and-posting pipeline.

Shallow embedding of:
  * backend/packages/firefly_client/src/firefly_client/__init__.py
    (FireflyAPIError, TransactionSplit amount handling, FireflyClient._make_request,
     FireflyClient.get_accounts, FireflyClient.delete_transaction)
  * backend/packages/mcp_server/src/mcp_server/server.py
    (TransactionRequest, get_accounts resource, create_transactions tool)
  * backend/packages/mcp_server/src/mcp_server/client.py
    (analyze_receipt output normalization)

Modeling conventions:
  * Python strings are Lean String; where kernel-evaluable recursion is needed the
    model works on the underlying character list (String.data).
  * python Decimal values produced from fixed-point amount strings are modeled as a
    coefficient together with a scale (number of fractional digits); wire amount
    strings are modeled at digit level by AmountStr.
  * HTTP traffic is modeled by TransportOutcome: either a response (status, raw body
    text, and the result of JSON-parsing the body as an object with string fields,
    none when the body is not such an object), a network-level request error
    (httpx.RequestError), or a timeout (httpx.TimeoutException).
  * The remote store_transaction call of create_transactions is a function parameter
    so theorems quantify over every remote behavior; the second component of the
    result of createTransactions lists the store calls actually issued.
-/

/-- Python `x or default` on an optional string: None and the empty string are falsy. -/
def pyOr (v : Option String) (dflt : String) : String :=
  match v with
  | some s => if s = "" then dflt else s
  | none => dflt

/-- Whitespace characters stripped by Python str.strip / bytes.strip. -/
def isSpaceChar (c : Char) : Bool :=
  c = ' ' || c = '\t' || c = '\n' || c = '\r' || c = '\x0b' || c = '\x0c'

/-- Python strip: drop whitespace from both ends. -/
def trimChars (l : List Char) : List Char :=
  ((l.dropWhile isSpaceChar).reverse.dropWhile isSpaceChar).reverse

/-- Decimal digit value of a character, none for a non-digit. -/
def charDigit (c : Char) : Option Nat :=
  if '0' ≤ c ∧ c ≤ '9' then some (c.toNat - 48) else none

/-- All-digit reading of a character list (big-endian digit values). -/
def digitsOfChars : List Char → Option (List Nat)
  | [] => some []
  | c :: cs =>
    match charDigit c, digitsOfChars cs with
    | some d, some ds => some (d :: ds)
    | _, _ => none

/-- Split a character list at the dot character, like str.split on a dot. -/
def splitOnDot : List Char → List (List Char)
  | [] => [[]]
  | c :: cs =>
    if c = '.' then [] :: splitOnDot cs
    else
      match splitOnDot cs with
      | [] => [[c]]
      | h :: t => (c :: h) :: t

/-- Python decimal.Decimal value as stored for a non-negative fixed-point amount:
coefficient and scale (count of fractional digits, the negated exponent). -/
structure PyDecimal where
  coeff : Nat
  scale : Nat
deriving DecidableEq

/-- A wire amount string modeled at digit level: big-endian digits of the integer
part and of the fractional part; an empty fracPart models a string with no dot. -/
structure AmountStr where
  intPart : List Nat
  fracPart : List Nat
deriving DecidableEq

/-- Decimal(str) on such a string: the coefficient is the digit sequence read as a
base-10 number, the scale is the number of fractional digits. -/
def AmountStr.parse (a : AmountStr) : PyDecimal :=
  ⟨Nat.ofDigits 10 (a.intPart ++ a.fracPart).reverse, a.fracPart.length⟩

/-- Exactly k little-endian base-10 digits of n (CPython pads the coefficient digit
string with leading zeros up to scale + 1 digits when printing a small value). -/
def padDigits : Nat → Nat → List Nat
  | 0, _ => []
  | k + 1, n => n % 10 :: padDigits k (n / 10)

/-- str(Decimal), the serialize_amount field serializer of TransactionSplit, in the
fixed-point regime of CPython Decimal.__str__ (no exponent notation, which CPython
uses only when the adjusted exponent leaves the fixed-point window): the coefficient
digit string is padded to at least scale + 1 digits and the last scale digits go
after the dot. -/
def PyDecimal.serialize (d : PyDecimal) : AmountStr :=
  ⟨((padDigits (max (Nat.digits 10 d.coeff).length (d.scale + 1)) d.coeff).reverse).take
      (max (Nat.digits 10 d.coeff).length (d.scale + 1) - d.scale),
    ((padDigits (max (Nat.digits 10 d.coeff).length (d.scale + 1)) d.coeff).reverse).drop
      (max (Nat.digits 10 d.coeff).length (d.scale + 1) - d.scale)⟩

/-- Canonical wire amount strings: every entry a digit, a non-empty integer part with
no spurious leading zero, and few enough decimal places that CPython prints the
value in fixed-point notation (CPython switches to exponent notation only when the
adjusted exponent drops below -6, which a scale bound of 6 rules out; ledger amounts
use far fewer places). -/
def AmountStr.canonical (a : AmountStr) : Prop :=
  (∀ d ∈ a.intPart ++ a.fracPart, d < 10) ∧ a.intPart ≠ [] ∧
    (a.intPart.head? = some 0 → a.intPart = [0]) ∧ a.fracPart.length ≤ 6

instance (a : AmountStr) : Decidable a.canonical := by
  unfold AmountStr.canonical
  infer_instance

/-- Decimal(text) for a request amount given as a string: digits with at most one
dot, after stripping whitespace. Signs and exponent notation are outside the model
(no claim depends on them). -/
def parseDecimalChars (l : List Char) : Option PyDecimal :=
  match splitOnDot (trimChars l) with
  | [w] =>
    match digitsOfChars w with
    | some ds => if ds.isEmpty then none else some ⟨Nat.ofDigits 10 ds.reverse, 0⟩
    | none => none
  | [w, f] =>
    match digitsOfChars w, digitsOfChars f with
    | some dw, some df =>
      if dw.isEmpty && df.isEmpty then none
      else some ⟨Nat.ofDigits 10 (dw ++ df).reverse, df.length⟩
    | _, _ => none
  | _ => none

def parseDecimalStr (s : String) : Option PyDecimal :=
  parseDecimalChars s.data

/-- pydantic lax coercion of a string to int: an optional minus sign followed by
digits, after stripping whitespace; anything else (an account name, say) is a
validation error. -/
def parsePyInt (s : String) : Option Int :=
  match trimChars s.data with
  | '-' :: ds =>
    match digitsOfChars ds with
    | some l => if l.isEmpty then none else some (-((Nat.ofDigits 10 l.reverse : Nat) : Int))
    | none => none
  | ds =>
    match digitsOfChars ds with
    | some l => if l.isEmpty then none else some ((Nat.ofDigits 10 l.reverse : Nat) : Int)
    | none => none

/-- firefly_client.FireflyAPIError: message, optional HTTP status, optional parsed
error body. -/
structure FireflyAPIError where
  message : String
  status_code : Option Nat := none
  response_data : Option (List (String × String)) := none
deriving DecidableEq

/-- Firefly account attributes (the fields the MCP layer reads). -/
structure FfAccountAttributes where
  name : String
  type : String
  currency_code : Option String := none
  notes : Option String := none
deriving DecidableEq

/-- Firefly account record. -/
structure FfAccount where
  id : Int
  attributes : FfAccountAttributes
deriving DecidableEq

/-- firefly_client.AccountsList response model. -/
structure AccountsList where
  data : List FfAccount
deriving DecidableEq

/-- A JSON object body: top-level string fields (message, error, ...) plus the
decoded data array when the body is an accounts page. -/
structure JsonBody where
  fields : List (String × String)
  dataAccounts : Option (List FfAccount) := none
deriving DecidableEq

/-- One HTTP response: status code, raw body text, and the result of JSON-parsing
the body as an object (none when the body is empty or not a JSON object). -/
structure HttpResponse where
  status : Nat
  text : String
  jsonBody : Option JsonBody := none
deriving DecidableEq

/-- What the transport produced for one request: a response, an httpx.RequestError
(connection refused, DNS failure, ...), or an httpx.TimeoutException. -/
inductive TransportOutcome where
  | response (r : HttpResponse)
  | requestError (msg : String)
  | timeout
deriving DecidableEq

/-- The error-message selection of FireflyClient._make_request for a status >= 400
response: message field of the parsed JSON object, else its error field, else the
generic HTTP string; when the body does not parse as JSON, the raw text when
non-empty, else the generic HTTP string. -/
def errorMessageFor (r : HttpResponse) : String :=
  match r.jsonBody with
  | some b =>
    match b.fields.lookup "message" with
    | some m => m
    | none =>
      match b.fields.lookup "error" with
      | some v => v
      | none => "HTTP " ++ toString r.status
  | none => if r.text = "" then "HTTP " ++ toString r.status else r.text

/-- FireflyClient._make_request: raise FireflyAPIError with the selected message and
the status on status >= 400; on success return the parsed body, or None when the
stripped body is empty or JSON parsing fails; wrap RequestError and
TimeoutException into status-less FireflyAPIError values. -/
def makeRequest : TransportOutcome → Except FireflyAPIError (Option JsonBody)
  | .response r =>
    if 400 ≤ r.status then
      .error ⟨errorMessageFor r, some r.status, (r.jsonBody.map JsonBody.fields)⟩
    else if (trimChars r.text.data).isEmpty then
      .ok none
    else
      match r.jsonBody with
      | some b => .ok (some b)
      | none => .ok none
  | .requestError m => .error ⟨"Request failed: " ++ m, none, none⟩
  | .timeout => .error ⟨"Request timed out", none, none⟩

/-- Errors a FireflyClient operation can raise: a FireflyAPIError, the Python
TypeError from AccountsList(**None), or a pydantic validation failure. -/
inductive ClientError where
  | api (e : FireflyAPIError)
  | typeError (msg : String)
  | validation (msg : String)
deriving DecidableEq

/-- FireflyClient.get_accounts: response_data = self._make_request(...); then
AccountsList(**response_data). A None response_data hits AccountsList(**None),
the Python TypeError; a parsed object without a valid data array fails pydantic
validation. -/
def getAccountsClient (o : TransportOutcome) : Except ClientError AccountsList :=
  match makeRequest o with
  | .error e => .error (.api e)
  | .ok none => .error (.typeError "argument after ** must be a mapping, not NoneType")
  | .ok (some b) =>
    match b.dataAccounts with
    | some accs => .ok ⟨accs⟩
    | none => .error (.validation "data field required")

/-- FireflyClient.delete_transaction: issue the request, discard the body. -/
def deleteTransaction (o : TransportOutcome) : Except FireflyAPIError Unit :=
  match makeRequest o with
  | .error e => .error e
  | .ok _ => .ok ()

/-- mcp_server TransactionSplit fields used by create_transactions (the remaining
optional passthrough fields of the firefly model never receive values there). -/
structure TransactionSplit where
  type : String
  date : String
  amount : PyDecimal
  description : String
  source_id : Option Int := none
  source_name : Option String := none
  destination_id : Option Int := none
  destination_name : Option String := none
  currency_code : Option String := none
  category_name : Option String := none
  budget_name : Option String := none
  notes : Option String := none
  tags : Option (List String) := none
deriving DecidableEq

/-- mcp_server.server.TransactionRequest after pydantic validation: type, amount and
description are required, the rest optional. The amount arrives as the wire string
(the str arm of its union type); date-string validity is checked only when the
split is built, which no claim depends on, so date stays a plain string here. -/
structure TransactionRequest where
  type : String
  source_account : Option String := none
  destination_account : Option String := none
  amount : String
  currency_code : Option String := none
  description : String
  date : Option String := none
  category_name : Option String := none
  budget_name : Option String := none
  notes : Option String := none
  tags : Option (List String) := none
deriving DecidableEq

/-- A raw tool-call payload before pydantic validation of TransactionRequest: every
field may be absent. -/
structure RawTransactionRequest where
  type : Option String := none
  source_account : Option String := none
  destination_account : Option String := none
  amount : Option String := none
  currency_code : Option String := none
  description : Option String := none
  date : Option String := none
  category_name : Option String := none
  budget_name : Option String := none
  notes : Option String := none
  tags : Option (List String) := none
deriving DecidableEq

/-- pydantic validation of TransactionRequest: fails exactly when a required field
(type, amount, description) is absent. -/
def parseTransactionRequest (raw : RawTransactionRequest) : Option TransactionRequest :=
  match raw.type, raw.amount, raw.description with
  | some t, some am, some de =>
    some ⟨t, raw.source_account, raw.destination_account, am, raw.currency_code, de,
      raw.date, raw.category_name, raw.budget_name, raw.notes, raw.tags⟩
  | _, _, _ => none

/-- How one request fails inside the loop of create_transactions: the early return
for an invalid transaction type, or a raised pydantic error while building the
TransactionSplit (caught by the generic except branch). -/
inductive MapError where
  | invalidType (t : String)
  | constructionError (msg : String)
deriving DecidableEq

/-- The TransactionSplit constructor call of create_transactions, after source and
destination were chosen per kind: parse the amount, default the date with Python
`or` to today, default the currency with Python `or`. -/
def mkSplit (today dc : String) (req : TransactionRequest)
    (sid : Option Int) (snm : Option String) (did : Option Int) (dnm : Option String) :
    Except MapError TransactionSplit :=
  match parseDecimalStr req.amount with
  | some amt =>
    .ok
      { type := req.type, date := pyOr req.date today, amount := amt,
        description := req.description, source_id := sid, source_name := snm,
        destination_id := did, destination_name := dnm,
        currency_code := some (pyOr req.currency_code dc),
        category_name := req.category_name, budget_name := req.budget_name,
        notes := req.notes, tags := req.tags }
  | none => .error (.constructionError ("Input should be a valid decimal, input " ++ req.amount))

/-- pydantic coercion of an optional account string into the Optional[int] id field
of TransactionSplit: None passes through, a string must parse as an integer. -/
def coerceOptInt (v : Option String) : Except String (Option Int) :=
  match v with
  | none => .ok none
  | some s =>
    match parsePyInt s with
    | some n => .ok (some n)
    | none => .error ("Input should be a valid integer, input " ++ s)

/-- One iteration of the create_transactions loop: branch on the transaction type to
choose source and destination by name or by id, then build the split. -/
def mapOne (today dc : String) (req : TransactionRequest) : Except MapError TransactionSplit :=
  if req.type = "withdrawal" then
    mkSplit today dc req none req.source_account none req.destination_account
  else if req.type = "deposit" then
    match coerceOptInt req.destination_account with
    | .ok did => mkSplit today dc req none req.source_account did none
    | .error m => .error (.constructionError m)
  else if req.type = "transfer" then
    match coerceOptInt req.source_account with
    | .ok sid =>
      match coerceOptInt req.destination_account with
      | .ok did => mkSplit today dc req sid none did none
      | .error m => .error (.constructionError m)
    | .error m => .error (.constructionError m)
  else
    .error (.invalidType req.type)

/-- The request loop of create_transactions: splits accumulate in order; the first
failure (early return or raised exception) aborts the whole call. -/
def buildSplits (today dc : String) : List TransactionRequest → Except MapError (List TransactionSplit)
  | [] => .ok []
  | r :: rs =>
    match mapOne today dc r with
    | .error e => .error e
    | .ok s =>
      match buildSplits today dc rs with
      | .error e => .error e
      | .ok ss => .ok (s :: ss)

/-- The transaction kinds create_transactions accepts. -/
def validKind (t : String) : Prop :=
  t = "withdrawal" ∨ t = "deposit" ∨ t = "transfer"

instance (t : String) : Decidable (validKind t) := by
  unfold validKind
  infer_instance

/-- The exact error string of the invalid-type early return. -/
def invalidTypeMessage (t : String) : String :=
  "Invalid transaction type: " ++ t ++
    ". Must be \x27withdrawal\x27, \x27deposit\x27, or \x27transfer\x27"

/-- The structured dict create_transactions returns. -/
structure ToolResult where
  success : Bool
  error : Option String := none
  transaction_id : Option Int := none
  message : Option String := none
  status_code : Option Nat := none
  group_title : Option String := none
deriving DecidableEq

/-- mcp_server.server.create_transactions. The remote store_transaction call is the
store parameter (an Except over transaction-group ids); the second component of the
result collects the argument lists of the store calls actually made. -/
def createTransactions (today dc : String)
    (store : List TransactionSplit → Option String → Except FireflyAPIError Int)
    (reqs : List TransactionRequest) (gt : Option String) :
    ToolResult × List (List TransactionSplit) :=
  match buildSplits today dc reqs with
  | .error (.invalidType t) =>
    ({ success := false, error := some (invalidTypeMessage t) }, [])
  | .error (.constructionError m) =>
    ({ success := false, error := some ("Error creating transaction: " ++ m) }, [])
  | .ok splits =>
    match store splits gt with
    | .ok tid =>
      ({ success := true, transaction_id := some tid,
         message := some ("Transaction created successfully with " ++
           toString splits.length ++ " split(s)"),
         group_title := gt }, [splits])
    | .error e =>
      ({ success := false, error := some ("Firefly API Error: " ++ e.message),
         status_code := e.status_code }, [splits])

/-- The simplified Account model of the MCP resource. -/
structure MCPAccount where
  id : Int
  name : String
  type : String
  notes : String
  currency_code : String
deriving DecidableEq

/-- The per-account mapping of the get_accounts resource: notes coerced with Python
`or` to the empty string, currency defaulted with Python `or`. -/
def mapAccount (dc : String) (a : FfAccount) : MCPAccount :=
  ⟨a.id, a.attributes.name, a.attributes.type,
    pyOr a.attributes.notes "", pyOr a.attributes.currency_code dc⟩

/-- The firefly://accounts resource of mcp_server.server: map the fetched accounts;
every raised error (FireflyAPIError branch and the catch-all branch alike) degrades
to the empty list. The total match models that nothing escapes the two except
branches. -/
def getAccountsResource (dc : String) (o : TransportOutcome) : List MCPAccount :=
  match getAccountsClient o with
  | .ok lst => lst.data.map (mapAccount dc)
  | .error _ => []

/-- One transaction dict inside an oracle tool-call argument payload, as an ordered
key-value record (Python dict assignment keeps the position of an existing key and
appends a new key at the end). -/
abbrev TxnDict := List (String × String)

/-- The argument payload of one oracle function call. -/
structure FnArgs where
  transactions : List TxnDict
  group_title : Option String := none
deriving DecidableEq

/-- One entry of response.output: a function call or anything else (skipped). -/
inductive OracleItem where
  | functionCall (name : String) (args : FnArgs)
  | other
deriving DecidableEq

/-- One entry of the functions_to_call list analyze_receipt returns. -/
structure FunctionCall where
  name : String
  args : FnArgs
deriving DecidableEq

/-- Python dict assignment d[k] = v on the ordered record model. -/
def setKey (k v : String) : TxnDict → TxnDict
  | [] => [(k, v)]
  | (k₀, v₀) :: rest => if k₀ = k then (k, v) :: rest else (k₀, v₀) :: setKey k v rest

/-- The normalization loop of analyze_receipt: when the transactions list is truthy
(non-empty) every transaction gets type forced to withdrawal; an empty list is left
as is, which mapping also leaves unchanged. -/
def normalizeArgs (a : FnArgs) : FnArgs :=
  if a.transactions.isEmpty then a
  else { a with transactions := a.transactions.map (setKey "type" "withdrawal") }

/-- The output loop of analyze_receipt: keep function calls, in order, with their
transactions force-tagged; skip every other output item. -/
def analyzeReceipt : List OracleItem → List FunctionCall
  | [] => []
  | .functionCall n a :: rest => ⟨n, normalizeArgs a⟩ :: analyzeReceipt rest
  | .other :: rest => analyzeReceipt rest

/-- The caller loop in client.main issues exactly one call_tool per returned
function call, so the ledger sees one tool invocation per list entry. -/
def ledgerToolCalls (fcs : List FunctionCall) : Nat :=
  fcs.length

/-- Any FireflyAPIError raised for an HTTP response carries the responses status
(which is at least 400) and the selected error message. -/
theorem makeRequest_response_error_status (r : HttpResponse) (e : FireflyAPIError)
    (h : makeRequest (.response r) = .error e) :
    e.status_code = some r.status ∧ 400 ≤ r.status ∧ e.message = errorMessageFor r := by
  simp only [makeRequest] at h
  by_cases hs : 400 ≤ r.status
  · rw [if_pos hs] at h
    injection h with h'
    subst h'
    exact ⟨rfl, hs, rfl⟩
  · rw [if_neg hs] at h
    by_cases ht : (trimChars r.text.data).isEmpty
    · rw [if_pos ht] at h
      simp at h
    · rw [if_neg ht] at h
      cases hj : r.jsonBody <;> rw [hj] at h <;> simp at h

/-- Claim C6: a ledger-client error carries a status code exactly when the remote
reported it (HTTP status at least 400); network failures and timeouts become
status-less FireflyAPIError values; deleting a transaction group the ledger rejects
(for example a 404 for a missing group) surfaces a FireflyAPIError whose status code
is populated with the responses status. -/
theorem c6_status_code_iff_remote :
    (∀ o e, makeRequest o = .error e →
      (e.status_code ≠ none ↔ ∃ r, o = .response r ∧ 400 ≤ r.status)) ∧
    (∀ r, 400 ≤ r.status →
      deleteTransaction (.response r) =
        .error ⟨errorMessageFor r, some r.status, r.jsonBody.map JsonBody.fields⟩) := by
  constructor
  · intro o e h
    cases o with
    | response r =>
      obtain ⟨h1, h2, _⟩ := makeRequest_response_error_status r e h
      constructor
      · intro _
        exact ⟨r, rfl, h2⟩
      · intro _
        rw [h1]
        simp
    | requestError m =>
      simp only [makeRequest] at h
      injection h with h'
      subst h'
      constructor
      · intro hne
        exact absurd rfl hne
      · rintro ⟨r, hr, -⟩
        exact TransportOutcome.noConfusion hr
    | timeout =>
      simp only [makeRequest] at h
      injection h with h'
      subst h'
      constructor
      · intro hne
        exact absurd rfl hne
      · rintro ⟨r, hr, -⟩
        exact TransportOutcome.noConfusion hr
  · intro r hs
    unfold deleteTransaction
    simp only [makeRequest]
    rw [if_pos hs]

/-- Witness for C6: a timeout yields a status-less error; deleting a transaction
group the ledger answers 404 for yields an error with status code 404. -/
theorem c6_witness :
    ((⟨"Request timed out", none, none⟩ : FireflyAPIError).status_code = none) ∧
    deleteTransaction (.response ⟨404, "", none⟩) =
      .error ⟨errorMessageFor ⟨404, "", none⟩, some 404, none⟩ := by
  constructor
  · have h := (c6_status_code_iff_remote.1 TransportOutcome.timeout
      ⟨"Request timed out", none, none⟩ rfl)
    by_contra hne
    obtain ⟨r, hr, -⟩ := h.mp hne
    exact TransportOutcome.noConfusion hr
  · exact c6_status_code_iff_remote.2 ⟨404, "", none⟩ (by decide)

/-- Counterexample to claim C4: for a success-status response with an empty body,
get_accounts does not return an account-page object at all; passing the None
payload of _make_request to the AccountsList constructor raises a Python TypeError. -/
theorem c4_counterexample :
    getAccountsClient (.response ⟨200, "", none⟩) =
      .error (.typeError "argument after ** must be a mapping, not NoneType") := by
  rfl

/-- Claim C4 as amended: for every success-status response whose stripped body is
empty, _make_request itself returns no payload and raises no transport exception,
but get_accounts then fails with a local TypeError while constructing the page from
the absent payload instead of returning an empty page object. -/
theorem c4_empty_body_amended (r : HttpResponse) (hs : r.status < 400)
    (ht : (trimChars r.text.data).isEmpty = true) :
    makeRequest (.response r) = .ok none ∧
    getAccountsClient (.response r) =
      .error (.typeError "argument after ** must be a mapping, not NoneType") := by
  have hm : makeRequest (.response r) = .ok none := by
    simp only [makeRequest]
    rw [if_neg (by omega), if_pos ht]
  refine ⟨hm, ?_⟩
  unfold getAccountsClient
  rw [hm]

/-- Witness for the amended C4 at a concrete 204-style empty response. -/
theorem c4_witness :
    makeRequest (.response ⟨204, "", none⟩) = .ok none ∧
    getAccountsClient (.response ⟨204, "", none⟩) =
      .error (.typeError "argument after ** must be a mapping, not NoneType") :=
  c4_empty_body_amended ⟨204, "", none⟩ (by decide) (by decide)

/-- Unfolding of errorMessageFor when the body parsed as a JSON object. -/
theorem errorMessageFor_some (r : HttpResponse) (b : JsonBody) (hb : r.jsonBody = some b) :
    errorMessageFor r =
      (match b.fields.lookup "message" with
        | some m => m
        | none =>
          match b.fields.lookup "error" with
          | some v => v
          | none => "HTTP " ++ toString r.status) := by
  unfold errorMessageFor
  rw [hb]

/-- Unfolding of errorMessageFor when the body did not parse as JSON. -/
theorem errorMessageFor_none (r : HttpResponse) (hb : r.jsonBody = none) :
    errorMessageFor r = if r.text = "" then "HTTP " ++ toString r.status else r.text := by
  unfold errorMessageFor
  rw [hb]

/-- Counterexample to claim C5: for a 500 response whose body is the JSON object
with a single foo field (so neither message nor error is present) and whose raw
text is non-empty, the code keeps the generic HTTP 500 message, while the claimed
priority order demands the raw response text. -/
theorem c5_counterexample :
    makeRequest (.response ⟨500, "\x7b\"foo\": \"1\"\x7d", some ⟨[("foo", "1")], none⟩⟩) =
      .error ⟨"HTTP 500", some 500, some [("foo", "1")]⟩ ∧
    ("\x7b\"foo\": \"1\"\x7d" : String) ≠ "" ∧
    ("HTTP 500" : String) ≠ "\x7b\"foo\": \"1\"\x7d" := by
  refine ⟨rfl, ?_, ?_⟩ <;> decide

/-- Claim C5 as amended: for a status at least 400, the error message is chosen as
the message field of the JSON object body when present, else its error field, else
the generic HTTP string; the raw response text is consulted only when the body does
not parse as JSON, and the generic string is used when that text is empty. -/
theorem c5_error_priority_amended (r : HttpResponse) (e : FireflyAPIError)
    (_hs : 400 ≤ r.status) (h : makeRequest (.response r) = .error e) :
    e.status_code = some r.status ∧
    (∀ b, r.jsonBody = some b →
      (∀ m, b.fields.lookup "message" = some m → e.message = m) ∧
      (b.fields.lookup "message" = none →
        ∀ v, b.fields.lookup "error" = some v → e.message = v) ∧
      (b.fields.lookup "message" = none → b.fields.lookup "error" = none →
        e.message = "HTTP " ++ toString r.status)) ∧
    (r.jsonBody = none → r.text ≠ "" → e.message = r.text) ∧
    (r.jsonBody = none → r.text = "" → e.message = "HTTP " ++ toString r.status) := by
  obtain ⟨hst, -, hmsg⟩ := makeRequest_response_error_status r e h
  refine ⟨hst, ?_, ?_, ?_⟩
  · intro b hb
    refine ⟨?_, ?_, ?_⟩
    · intro m hm
      rw [hmsg, errorMessageFor_some r b hb, hm]
    · intro hm v hv
      rw [hmsg, errorMessageFor_some r b hb, hm, hv]
    · intro hm hv
      rw [hmsg, errorMessageFor_some r b hb, hm, hv]
  · intro hb hne
    rw [hmsg, errorMessageFor_none r hb, if_neg hne]
  · intro hb hempty
    rw [hmsg, errorMessageFor_none r hb, if_pos hempty]

/-- Witness for the amended C5 at a concrete 422 response with a message field. -/
theorem c5_witness :
    (⟨"Duplicate hash", some 422, some [("message", "Duplicate hash")]⟩ :
        FireflyAPIError).message = "Duplicate hash" := by
  have h := c5_error_priority_amended
    ⟨422, "x", some ⟨[("message", "Duplicate hash")], none⟩⟩
    ⟨"Duplicate hash", some 422, some [("message", "Duplicate hash")]⟩
    (by decide) rfl
  exact (h.2.1 ⟨[("message", "Duplicate hash")], none⟩ rfl).1 "Duplicate hash" rfl

/-- Claim C9: whenever fetching or validating accounts fails with any raised error,
the firefly accounts resource returns the empty list (the mapping over the outcome
is total, so nothing escapes the except branches). -/
theorem c9_resource_degrades_to_empty (dc : String) (o : TransportOutcome)
    (e : ClientError) (h : getAccountsClient o = .error e) :
    getAccountsResource dc o = [] := by
  unfold getAccountsResource
  rw [h]

/-- Witness for C9: an unreachable host (connection refused) yields the empty
account list at the resource boundary. -/
theorem c9_witness :
    getAccountsResource "EUR" (.requestError "connection refused") = [] :=
  c9_resource_degrades_to_empty "EUR" (.requestError "connection refused")
    (.api ⟨"Request failed: connection refused", none, none⟩) rfl

/-- After the dict assignment of the type key, looking the key up yields the
assigned value. -/
theorem lookup_setKey_self (k v : String) (t : TxnDict) :
    (setKey k v t).lookup k = some v := by
  induction t with
  | nil => simp [setKey, List.lookup]
  | cons p rest ih =>
    obtain ⟨k₀, v₀⟩ := p
    by_cases hk : k₀ = k
    · subst hk
      simp [setKey, List.lookup]
    · rw [setKey, if_neg hk, List.lookup]
      have : (k == k₀) = false := beq_false_of_ne fun he => hk he.symm
      rw [this]
      exact ih

/-- Claim C7: every transaction of every function call returned by analyze_receipt
carries type withdrawal, whatever type the oracle produced; and an oracle response
without function calls yields the empty list, with zero tool invocations issued by
the caller loop. -/
theorem c7_force_withdrawal (output : List OracleItem) :
    (∀ fc ∈ analyzeReceipt output, ∀ t ∈ fc.args.transactions,
      t.lookup "type" = some "withdrawal") ∧
    ((∀ i ∈ output, i = OracleItem.other) →
      analyzeReceipt output = [] ∧ ledgerToolCalls (analyzeReceipt output) = 0) := by
  induction output with
  | nil =>
    refine ⟨?_, fun _ => ⟨rfl, rfl⟩⟩
    intro fc hfc
    cases hfc
  | cons i rest ih =>
    cases i with
    | functionCall n a =>
      constructor
      · intro fc hfc t ht
        rw [show analyzeReceipt (OracleItem.functionCall n a :: rest) =
            ⟨n, normalizeArgs a⟩ :: analyzeReceipt rest from rfl] at hfc
        rcases List.mem_cons.mp hfc with hfc | hfc
        · subst hfc
          unfold normalizeArgs at ht
          by_cases he : a.transactions.isEmpty
          · rw [if_pos he] at ht
            rw [List.isEmpty_iff.mp he] at ht
            cases ht
          · rw [if_neg he] at ht
            obtain ⟨t₀, -, rfl⟩ := List.mem_map.mp ht
            exact lookup_setKey_self "type" "withdrawal" t₀
        · exact ih.1 fc hfc t ht
      · intro hall
        exact absurd (hall (OracleItem.functionCall n a) (List.mem_cons_self _ _))
          (fun he => OracleItem.noConfusion he)
    | other =>
      rw [show analyzeReceipt (OracleItem.other :: rest) = analyzeReceipt rest from rfl]
      exact ⟨ih.1, fun hall => ih.2 fun i hi => hall i (List.mem_cons_of_mem _ hi)⟩

/-- Witness for C7: a concrete function call whose transaction arrived tagged
deposit is retagged withdrawal, and an output with no function calls maps to the
empty list. -/
theorem c7_witness :
    (List.lookup "type" [("amount", "12"), ("type", "withdrawal")] = some "withdrawal") ∧
    analyzeReceipt [OracleItem.other] = [] := by
  constructor
  · have h := (c7_force_withdrawal
      [OracleItem.functionCall "create_transactions" ⟨[[("amount", "12"), ("type", "deposit")]], none⟩]).1
      ⟨"create_transactions", ⟨[[("amount", "12"), ("type", "withdrawal")]], none⟩⟩
      (by decide) [("amount", "12"), ("type", "withdrawal")] (by decide)
    exact h
  · exact ((c7_force_withdrawal [OracleItem.other]).2 (by decide)).1

/-- A request with a kind outside the three accepted ones hits the early-return
branch of create_transactions. -/
theorem mapOne_invalid (today dc : String) (req : TransactionRequest)
    (h : ¬ validKind req.type) : mapOne today dc req = .error (.invalidType req.type) := by
  unfold mapOne
  rw [if_neg fun e => h (Or.inl e), if_neg fun e => h (Or.inr (Or.inl e)),
    if_neg fun e => h (Or.inr (Or.inr e))]

/-- Characterization of a successful iteration of the create_transactions loop: the
produced split copies type, description, category, budget, notes and tags, defaults
date and currency with Python or-semantics, takes its amount from parsing the
request amount, and resolves source and destination per transaction kind. -/
theorem mapOne_ok_fields (today dc : String) (req : TransactionRequest)
    (sp : TransactionSplit) (hok : mapOne today dc req = .ok sp) :
    validKind req.type ∧
    sp.type = req.type ∧
    sp.date = pyOr req.date today ∧
    parseDecimalStr req.amount = some sp.amount ∧
    sp.description = req.description ∧
    sp.currency_code = some (pyOr req.currency_code dc) ∧
    (req.type = "withdrawal" →
      sp.source_id = none ∧ sp.source_name = req.source_account ∧
      sp.destination_id = none ∧ sp.destination_name = req.destination_account) ∧
    (req.type = "deposit" →
      sp.source_id = none ∧ sp.source_name = req.source_account ∧
      sp.destination_name = none ∧
      coerceOptInt req.destination_account = .ok sp.destination_id) ∧
    (req.type = "transfer" →
      sp.source_name = none ∧ sp.destination_name = none ∧
      coerceOptInt req.source_account = .ok sp.source_id ∧
      coerceOptInt req.destination_account = .ok sp.destination_id) := by
  unfold mapOne at hok
  by_cases h1 : req.type = "withdrawal"
  · rw [if_pos h1] at hok
    unfold mkSplit at hok
    cases hp : parseDecimalStr req.amount <;> rw [hp] at hok
    · simp at hok
    · injection hok with hok'
      subst hok'
      refine ⟨Or.inl h1, rfl, rfl, rfl, rfl, rfl, fun _ => ⟨rfl, rfl, rfl, rfl⟩, ?_, ?_⟩
      · intro h2
        rw [h1] at h2
        exact absurd h2 (by decide)
      · intro h3
        rw [h1] at h3
        exact absurd h3 (by decide)
  · rw [if_neg h1] at hok
    by_cases h2 : req.type = "deposit"
    · rw [if_pos h2] at hok
      cases hci : coerceOptInt req.destination_account <;> rw [hci] at hok
      · simp at hok
      · unfold mkSplit at hok
        cases hp : parseDecimalStr req.amount <;> rw [hp] at hok
        · simp at hok
        · injection hok with hok'
          subst hok'
          refine ⟨Or.inr (Or.inl h2), rfl, rfl, rfl, rfl, rfl, ?_, ?_, ?_⟩
          · intro h'
            rw [h2] at h'
            exact absurd h' (by decide)
          · intro _
            exact ⟨rfl, rfl, rfl, rfl⟩
          · intro h'
            rw [h2] at h'
            exact absurd h' (by decide)
    · rw [if_neg h2] at hok
      by_cases h3 : req.type = "transfer"
      · rw [if_pos h3] at hok
        cases hcs : coerceOptInt req.source_account <;> rw [hcs] at hok
        · simp at hok
        · cases hcd : coerceOptInt req.destination_account <;> rw [hcd] at hok
          · simp at hok
          · unfold mkSplit at hok
            cases hp : parseDecimalStr req.amount <;> rw [hp] at hok
            · simp at hok
            · injection hok with hok'
              subst hok'
              refine ⟨Or.inr (Or.inr h3), rfl, rfl, rfl, rfl, rfl, ?_, ?_, ?_⟩
              · intro h'
                rw [h3] at h'
                exact absurd h' (by decide)
              · intro h'
                rw [h3] at h'
                exact absurd h' (by decide)
              · intro _
                exact ⟨rfl, rfl, rfl, rfl⟩
      · rw [if_neg h3] at hok
        simp at hok

/-- When every request before the insertion point maps to a split, processing stops
at the invalid-kind request with exactly its invalid-type error. -/
theorem buildSplits_invalid_first (today dc : String) (pre rest : List TransactionRequest)
    (bad : TransactionRequest) (hpre : ∀ r ∈ pre, ∃ s, mapOne today dc r = .ok s)
    (hbad : ¬ validKind bad.type) :
    buildSplits today dc (pre ++ bad :: rest) = .error (.invalidType bad.type) := by
  induction pre with
  | nil =>
    rw [List.nil_append]
    simp only [buildSplits]
    rw [mapOne_invalid today dc bad hbad]
  | cons a pre' ih =>
    obtain ⟨s, hs⟩ := hpre a (List.mem_cons_self _ _)
    rw [List.cons_append]
    simp only [buildSplits]
    rw [hs, ih fun r hr => hpre r (List.mem_cons_of_mem _ hr)]

/-- One failing request anywhere in the list makes the whole loop fail. -/
theorem buildSplits_error_of_mem (today dc : String) (reqs : List TransactionRequest)
    (r : TransactionRequest) (e : MapError) (hr : r ∈ reqs)
    (he : mapOne today dc r = .error e) :
    ∃ e₂, buildSplits today dc reqs = .error e₂ := by
  induction reqs with
  | nil => cases hr
  | cons a rs ih =>
    rcases List.mem_cons.mp hr with h | h
    · subst h
      refine ⟨e, ?_⟩
      simp only [buildSplits]
      rw [he]
    · simp only [buildSplits]
      cases hma : mapOne today dc a with
      | error e₃ => exact ⟨e₃, rfl⟩
      | ok s =>
        obtain ⟨e₂, h₂⟩ := ih h
        rw [h₂]
        exact ⟨e₂, rfl⟩

/-- Any failure of the request loop yields the structured failure dict and no store
call, whichever of the two failure branches was taken. -/
theorem createTransactions_of_error (today dc : String)
    (store : List TransactionSplit → Option String → Except FireflyAPIError Int)
    (reqs : List TransactionRequest) (gt : Option String) (e : MapError)
    (h : buildSplits today dc reqs = .error e) :
    (createTransactions today dc store reqs gt).1.success = false ∧
    (createTransactions today dc store reqs gt).2 = [] := by
  cases e with
  | invalidType t =>
    unfold createTransactions
    rw [h]
    exact ⟨rfl, rfl⟩
  | constructionError m =>
    unfold createTransactions
    rw [h]
    exact ⟨rfl, rfl⟩

/-- Unfolding of coerceOptInt on a present string. -/
theorem coerceOptInt_some_eq (s : String) :
    coerceOptInt (some s) =
      (match parsePyInt s with
        | some n => Except.ok (some n)
        | none => Except.error ("Input should be a valid integer, input " ++ s)) := rfl

/-- Claim C1: when the mapper turns a request with a valid kind into a split, a
withdrawal populates source and destination by name with both id fields unset, a
deposit populates source by name and destination by id with the other two unset,
and a transfer populates source and destination by id with both name fields unset
(for requests that actually supply both accounts). -/
theorem c1_split_reference_population (today dc : String) (req : TransactionRequest)
    (sp : TransactionSplit) (hs : req.source_account.isSome = true)
    (hd : req.destination_account.isSome = true)
    (hok : mapOne today dc req = .ok sp) :
    (req.type = "withdrawal" →
      sp.source_name = req.source_account ∧ sp.destination_name = req.destination_account ∧
      sp.source_name.isSome = true ∧ sp.destination_name.isSome = true ∧
      sp.source_id = none ∧ sp.destination_id = none) ∧
    (req.type = "deposit" →
      sp.source_name = req.source_account ∧ sp.source_name.isSome = true ∧
      sp.destination_id.isSome = true ∧ sp.source_id = none ∧ sp.destination_name = none) ∧
    (req.type = "transfer" →
      sp.source_id.isSome = true ∧ sp.destination_id.isSome = true ∧
      sp.source_name = none ∧ sp.destination_name = none) := by
  obtain ⟨-, -, -, -, -, -, hw, hdep, htr⟩ := mapOne_ok_fields today dc req sp hok
  refine ⟨?_, ?_, ?_⟩
  · intro hty
    obtain ⟨w1, w2, w3, w4⟩ := hw hty
    exact ⟨w2, w4, w2 ▸ hs, w4 ▸ hd, w1, w3⟩
  · intro hty
    obtain ⟨d1, d2, d3, d4⟩ := hdep hty
    obtain ⟨s, hs'⟩ := Option.isSome_iff_exists.mp hd
    rw [hs', coerceOptInt_some_eq s] at d4
    cases hpi : parsePyInt s <;> rw [hpi] at d4
    · exact absurd d4 (by simp)
    · injection d4 with d4'
      exact ⟨d2, d2 ▸ hs, by rw [← d4']; rfl, d1, d3⟩
  · intro hty
    obtain ⟨t1, t2, t3, t4⟩ := htr hty
    obtain ⟨s₁, hs₁⟩ := Option.isSome_iff_exists.mp hs
    obtain ⟨s₂, hs₂⟩ := Option.isSome_iff_exists.mp hd
    rw [hs₁, coerceOptInt_some_eq s₁] at t3
    rw [hs₂, coerceOptInt_some_eq s₂] at t4
    cases hp₁ : parsePyInt s₁ <;> rw [hp₁] at t3
    · exact absurd t3 (by simp)
    · cases hp₂ : parsePyInt s₂ <;> rw [hp₂] at t4
      · exact absurd t4 (by simp)
      · injection t3 with t3'
        injection t4 with t4'
        exact ⟨by rw [← t3']; rfl, by rw [← t4']; rfl, t1, t2⟩

/-- Witness for C1: concrete withdrawal, deposit and transfer requests mapped to
splits with the claimed reference population. -/
theorem c1_witness :
    (mapOne "2024-01-02" "EUR"
        { type := "withdrawal", source_account := some "Checking", destination_account := some "Groceries", amount := "12.30", description := "x", date := some "2024-03-03" } =
      Except.ok
        { type := "withdrawal", date := "2024-03-03", amount := ⟨1230, 2⟩, description := "x", source_name := some "Checking", destination_name := some "Groceries", currency_code := some "EUR" }) ∧
    ((some "Checking" : Option String).isSome = true ∧ (none : Option Int) = none) := by
  have hok : mapOne "2024-01-02" "EUR"
      { type := "withdrawal", source_account := some "Checking", destination_account := some "Groceries", amount := "12.30", description := "x", date := some "2024-03-03" } =
      Except.ok
        { type := "withdrawal", date := "2024-03-03", amount := ⟨1230, 2⟩, description := "x", source_name := some "Checking", destination_name := some "Groceries", currency_code := some "EUR" } := by
    rfl
  have h := (c1_split_reference_population "2024-01-02" "EUR"
    { type := "withdrawal", source_account := some "Checking", destination_account := some "Groceries", amount := "12.30", description := "x", date := some "2024-03-03" }
    { type := "withdrawal", date := "2024-03-03", amount := ⟨1230, 2⟩, description := "x", source_name := some "Checking", destination_name := some "Groceries", currency_code := some "EUR" }
    rfl rfl hok).1 rfl
  exact ⟨hok, h.2.2.1, h.2.2.2.2.1⟩

/-- Claim C2: for every request list containing a request whose kind is outside the
three accepted ones, create_transactions returns a failure result (success false)
and issues no store-transaction call; and in the claims scenario that the earlier
requests in the list were valid, formalized as every request before the invalid one
mapping to a split, the failure carries exactly the error message
"Invalid transaction type: <kind>. Must be ..." naming the exact invalid kind. -/
theorem c2_invalid_kind_message_and_no_store :
    (∀ (today dc : String)
      (store : List TransactionSplit → Option String → Except FireflyAPIError Int)
      (reqs : List TransactionRequest) (gt : Option String) (r : TransactionRequest),
      r ∈ reqs → ¬ validKind r.type →
      (createTransactions today dc store reqs gt).1.success = false ∧
      (createTransactions today dc store reqs gt).2 = []) ∧
    (∀ (today dc : String)
      (store : List TransactionSplit → Option String → Except FireflyAPIError Int)
      (pre rest : List TransactionRequest) (bad : TransactionRequest) (gt : Option String),
      (∀ r ∈ pre, ∃ s, mapOne today dc r = .ok s) → ¬ validKind bad.type →
      createTransactions today dc store (pre ++ bad :: rest) gt =
        ({ success := false, error := some (invalidTypeMessage bad.type) }, [])) := by
  constructor
  · intro today dc store reqs gt r hr hbad
    obtain ⟨e₂, h₂⟩ :=
      buildSplits_error_of_mem today dc reqs r _ hr (mapOne_invalid today dc r hbad)
    exact createTransactions_of_error today dc store reqs gt e₂ h₂
  · intro today dc store pre rest bad gt hpre hbad
    unfold createTransactions
    rw [buildSplits_invalid_first today dc pre rest bad hpre hbad]

/-- Witness for C2: a valid withdrawal followed by a kind foo request produces
exactly the invalid-type error naming foo and no store call; a list holding a kind
foo request returns failure with no store call. -/
theorem c2_witness :
    createTransactions "2024-01-02" "EUR" (fun _ _ => Except.ok 3)
        [{ type := "withdrawal", source_account := some "Checking", destination_account := some "Groceries", amount := "1.00", description := "w" },
         { type := "foo", amount := "1", description := "d" }] none =
      ({ success := false, error := some (invalidTypeMessage "foo") }, []) ∧
    (createTransactions "2024-01-02" "EUR" (fun _ _ => Except.ok 3)
        [{ type := "foo", amount := "1", description := "d" }] none).1.success = false ∧
    (createTransactions "2024-01-02" "EUR" (fun _ _ => Except.ok 3)
        [{ type := "foo", amount := "1", description := "d" }] none).2 = [] := by
  refine ⟨?_, ?_, ?_⟩
  · exact c2_invalid_kind_message_and_no_store.2 "2024-01-02" "EUR" (fun _ _ => Except.ok 3)
      [{ type := "withdrawal", source_account := some "Checking", destination_account := some "Groceries", amount := "1.00", description := "w" }]
      [] { type := "foo", amount := "1", description := "d" } none
      (by intro r hr
          rcases List.mem_cons.mp hr with h | h
          · subst h
            exact ⟨_, rfl⟩
          · cases h)
      (by decide)
  · exact (c2_invalid_kind_message_and_no_store.1 "2024-01-02" "EUR" (fun _ _ => Except.ok 3)
      [{ type := "foo", amount := "1", description := "d" }] none
      { type := "foo", amount := "1", description := "d" }
      (List.mem_cons_self _ _) (by decide)).1
  · exact (c2_invalid_kind_message_and_no_store.1 "2024-01-02" "EUR" (fun _ _ => Except.ok 3)
      [{ type := "foo", amount := "1", description := "d" }] none
      { type := "foo", amount := "1", description := "d" }
      (List.mem_cons_self _ _) (by decide)).2

/-- Counterexample to claim C3: a withdrawal request missing both source and
destination accounts is not rejected with a validation error; the mapper builds a
split with both references unset and the store call proceeds. -/
theorem c3_counterexample :
    (createTransactions "2024-01-02" "EUR" (fun _ _ => Except.ok 7)
        [{ type := "withdrawal", amount := "5.00", description := "lunch", date := some "2024-05-05" }] none).1.success = true ∧
    (createTransactions "2024-01-02" "EUR" (fun _ _ => Except.ok 7)
        [{ type := "withdrawal", amount := "5.00", description := "lunch", date := some "2024-05-05" }] none).2 =
      [[{ type := "withdrawal", date := "2024-05-05", amount := ⟨500, 2⟩, description := "lunch", currency_code := some "EUR" }]] := by
  exact ⟨rfl, rfl⟩

/-- Claim C3 as amended: the date defaults to today exactly when the request date is
absent (or, by Python or-semantics, the empty string); a request missing amount or
description already fails pydantic validation of TransactionRequest; a missing
source or destination account is carried through as unset reference fields on the
split, with no local validation error and never a filled-in value. -/
theorem c3_defaults_amended :
    (∀ raw : RawTransactionRequest, raw.amount = none ∨ raw.description = none →
      parseTransactionRequest raw = none) ∧
    (∀ (today dc : String) (req : TransactionRequest) (sp : TransactionSplit),
      mapOne today dc req = .ok sp →
      sp.date = pyOr req.date today ∧ (req.date = none → sp.date = today) ∧
      parseDecimalStr req.amount = some sp.amount ∧ sp.description = req.description ∧
      (req.source_account = none → sp.source_id = none ∧ sp.source_name = none) ∧
      (req.destination_account = none → sp.destination_id = none ∧ sp.destination_name = none)) := by
  constructor
  · intro raw h
    rcases h with h | h <;>
      cases ht : raw.type <;> cases ha : raw.amount <;> cases hd : raw.description <;>
      simp_all [parseTransactionRequest]
  · intro today dc req sp hok
    obtain ⟨hvk, -, hdate, hamt, hdesc, -, hw, hdep, htr⟩ := mapOne_ok_fields today dc req sp hok
    refine ⟨hdate, ?_, hamt, hdesc, ?_, ?_⟩
    · intro hnone
      rw [hdate, hnone]
      rfl
    · intro hsrc
      rcases hvk with hty | hty | hty
      · obtain ⟨w1, w2, -, -⟩ := hw hty
        exact ⟨w1, w2.trans hsrc⟩
      · obtain ⟨d1, d2, -, -⟩ := hdep hty
        exact ⟨d1, d2.trans hsrc⟩
      · obtain ⟨t1, -, t3, -⟩ := htr hty
        rw [hsrc] at t3
        injection t3 with t3'
        exact ⟨t3'.symm, t1⟩
    · intro hdst
      rcases hvk with hty | hty | hty
      · obtain ⟨-, -, w3, w4⟩ := hw hty
        exact ⟨w3, w4.trans hdst⟩
      · obtain ⟨-, -, d3, d4⟩ := hdep hty
        rw [hdst] at d4
        injection d4 with d4'
        exact ⟨d4'.symm, d3⟩
      · obtain ⟨-, t2, -, t4⟩ := htr hty
        rw [hdst] at t4
        injection t4 with t4'
        exact ⟨t4'.symm, t2⟩

/-- Witness for the amended C3: a raw request missing the amount fails validation;
a request with a date keeps it, and one without a source carries no source. -/
theorem c3_witness :
    parseTransactionRequest { type := some "withdrawal", description := some "x" } = none ∧
    (TransactionSplit.date { type := "withdrawal", date := "2024-05-05", amount := ⟨500, 2⟩, description := "lunch", currency_code := some "EUR" } = pyOr (some "2024-05-05") "2024-01-02" ∧
      TransactionSplit.source_name { type := "withdrawal", date := "2024-05-05", amount := ⟨500, 2⟩, description := "lunch", currency_code := some "EUR" } = none) := by
  constructor
  · exact c3_defaults_amended.1 { type := some "withdrawal", description := some "x" }
      (Or.inl rfl)
  · have h := c3_defaults_amended.2 "2024-01-02" "EUR"
      { type := "withdrawal", amount := "5.00", description := "lunch", date := some "2024-05-05" }
      { type := "withdrawal", date := "2024-05-05", amount := ⟨500, 2⟩, description := "lunch", currency_code := some "EUR" }
      rfl
    exact ⟨h.1, (h.2.2.2.2.1 rfl).2⟩

/-- Claim C10: a deposit request whose destination account string does not parse as
an integer fails split construction (the destination id field of the split only
admits integers), so create_transactions returns a failure dict with success false
and issues no store call. -/
theorem c10_deposit_name_destination_fails (today dc : String)
    (store : List TransactionSplit → Option String → Except FireflyAPIError Int)
    (reqs : List TransactionRequest) (gt : Option String) (req : TransactionRequest)
    (s : String) (hmem : req ∈ reqs) (hty : req.type = "deposit")
    (hdst : req.destination_account = some s) (hpi : parsePyInt s = none) :
    (createTransactions today dc store reqs gt).1.success = false ∧
    (createTransactions today dc store reqs gt).2 = [] := by
  have herr : mapOne today dc req =
      .error (.constructionError ("Input should be a valid integer, input " ++ s)) := by
    unfold mapOne
    rw [hty]
    rw [if_neg (by decide), if_pos rfl]
    rw [hdst, coerceOptInt_some_eq s, hpi]
  obtain ⟨e₂, h₂⟩ := buildSplits_error_of_mem today dc reqs req _ hmem herr
  exact createTransactions_of_error today dc store reqs gt e₂ h₂

/-- Witness for C10: a deposit aimed at the account name Checking fails with no
store call. -/
theorem c10_witness :
    (createTransactions "2024-01-02" "EUR" (fun _ _ => Except.ok 9)
        [{ type := "deposit", source_account := some "Employer", destination_account := some "Checking", amount := "9.99", description := "pay" }] none).1.success = false ∧
    (createTransactions "2024-01-02" "EUR" (fun _ _ => Except.ok 9)
        [{ type := "deposit", source_account := some "Employer", destination_account := some "Checking", amount := "9.99", description := "pay" }] none).2 = [] :=
  c10_deposit_name_destination_fails "2024-01-02" "EUR" (fun _ _ => Except.ok 9)
    [{ type := "deposit", source_account := some "Employer", destination_account := some "Checking", amount := "9.99", description := "pay" }] none
    { type := "deposit", source_account := some "Employer", destination_account := some "Checking", amount := "9.99", description := "pay" }
    "Checking" (List.mem_cons_self _ _) rfl rfl (by decide)

/-- Reading the digits of a list back through padding at its own length is the
identity for digit lists. -/
theorem padDigits_ofDigits (l : List Nat) (h : ∀ d ∈ l, d < 10) :
    padDigits l.length (Nat.ofDigits 10 l) = l := by
  induction l with
  | nil => rfl
  | cons d t ih =>
    have hd : d < 10 := h d (List.mem_cons_self _ _)
    have hof : Nat.ofDigits 10 (d :: t) = d + 10 * Nat.ofDigits 10 t := by
      simp [Nat.ofDigits_cons]
    rw [List.length_cons]
    simp only [padDigits]
    rw [hof]
    have h1 : (d + 10 * Nat.ofDigits 10 t) % 10 = d := by omega
    have h2 : (d + 10 * Nat.ofDigits 10 t) / 10 = Nat.ofDigits 10 t := by omega
    rw [h1, h2, ih fun x hx => h x (List.mem_cons_of_mem _ hx)]

/-- Serialization computed once the padding width is known to be the full digit
count of the original string. -/
theorem serialize_of_eq_len (c : Nat) (ip fp : List Nat)
    (hm : max (Nat.digits 10 c).length (fp.length + 1) = ip.length + fp.length)
    (hpad : padDigits (ip.length + fp.length) c = (ip ++ fp).reverse) :
    PyDecimal.serialize ⟨c, fp.length⟩ = ⟨ip, fp⟩ := by
  simp only [PyDecimal.serialize]
  rw [hm, hpad, List.reverse_reverse]
  have hsub : ip.length + fp.length - fp.length = ip.length := by omega
  rw [hsub, List.take_left, List.drop_left]

/-- Claim C8: for every canonical fixed-point amount string, parsing it into the
exact decimal held by the split and serializing that decimal back through the
string field serializer is the identity; the amount never passes through a binary
float, and no precision is lost at any number of decimal places the ledger
supports. -/
theorem c8_amount_roundtrip (a : AmountStr) (h : a.canonical) :
    a.parse.serialize = a := by
  obtain ⟨ip, fp⟩ := a
  obtain ⟨h10, hne, hz, -⟩ := h
  have h10' : ∀ d ∈ (ip ++ fp).reverse, d < 10 := fun d hd => h10 d (List.mem_reverse.mp hd)
  have hLlen : ((ip ++ fp).reverse).length = ip.length + fp.length := by
    rw [List.length_reverse, List.length_append]
  have hpad : padDigits (ip.length + fp.length) (Nat.ofDigits 10 ((ip ++ fp).reverse)) =
      (ip ++ fp).reverse := by
    have h2 := padDigits_ofDigits ((ip ++ fp).reverse) h10'
    rwa [hLlen] at h2
  show PyDecimal.serialize ⟨Nat.ofDigits 10 ((ip ++ fp).reverse), fp.length⟩ = ⟨ip, fp⟩
  apply serialize_of_eq_len _ _ _ ?_ hpad
  cases ip with
  | nil => exact absurd rfl hne
  | cons d0 t =>
    by_cases hd0 : d0 = 0
    · subst hd0
      have hip : (0 : ℕ) :: t = [0] := hz rfl
      have ht : t = [] := by injection hip
      subst ht
      rw [List.singleton_append, List.reverse_cons]
      have h10'' : ∀ x ∈ fp.reverse ++ [0], x < 10 := by
        intro x hx
        rcases List.mem_append.mp hx with hx | hx
        · exact h10 x (List.mem_cons_of_mem _ (List.mem_reverse.mp hx))
        · rw [List.mem_singleton.mp hx]
          omega
      have hlt : Nat.ofDigits 10 (fp.reverse ++ [0]) < 10 ^ (fp.length + 1) := by
        have h3 := Nat.ofDigits_lt_base_pow_length (b := 10) (by norm_num) h10''
        simpa using h3
      have hdl : (Nat.digits 10 (Nat.ofDigits 10 (fp.reverse ++ [0]))).length ≤ fp.length + 1 := by
        rcases Nat.eq_zero_or_pos (Nat.ofDigits 10 (fp.reverse ++ [0])) with h0 | hpos
        · rw [h0]
          simp
        · rw [Nat.digits_len 10 _ (by norm_num) (Nat.pos_iff_ne_zero.mp hpos)]
          have h4 := Nat.log_lt_of_lt_pow (Nat.pos_iff_ne_zero.mp hpos) hlt
          omega
      rw [Nat.max_eq_right hdl]
      simp only [List.length_cons, List.length_nil]
      omega
    · have hq : (((d0 :: t) ++ fp).reverse).getLast? = some d0 := by
        rw [List.getLast?_reverse]
        rfl
      have hgl : ∀ (hh : ((d0 :: t) ++ fp).reverse ≠ []),
          (((d0 :: t) ++ fp).reverse).getLast hh ≠ 0 := by
        intro hh
        rw [List.getLast?_eq_getLast _ hh] at hq
        injection hq with hq'
        rw [hq']
        exact hd0
      have hdig : Nat.digits 10 (Nat.ofDigits 10 (((d0 :: t) ++ fp).reverse)) =
          ((d0 :: t) ++ fp).reverse :=
        Nat.digits_ofDigits 10 (by norm_num) _ h10' hgl
      rw [hdig, hLlen]
      apply Nat.max_eq_left
      simp only [List.length_cons]
      omega

/-- Witness for C8: the string 123.45 parses to the exact decimal with coefficient
12345 and two decimal places and serializes back to 123.45. -/
theorem c8_witness :
    (AmountStr.canonical ⟨[1, 2, 3], [4, 5]⟩) ∧
    (AmountStr.parse ⟨[1, 2, 3], [4, 5]⟩).coeff = 12345 ∧
    (AmountStr.parse ⟨[1, 2, 3], [4, 5]⟩).scale = 2 ∧
    (AmountStr.parse ⟨[1, 2, 3], [4, 5]⟩).serialize = ⟨[1, 2, 3], [4, 5]⟩ :=
  ⟨by decide, by decide, rfl, c8_amount_roundtrip ⟨[1, 2, 3], [4, 5]⟩ (by decide)⟩
